import Mathlib

/-!
Shallow embedding of the reproducible core of `main.py` (Instagram trending
hashtag discovery pipeline): the Categorizer, the Discovery Collector, the
Engagement Aggregator, the Trend Record Builder, the Upsert Writer and the
per-hashtag save loop of the Run Orchestrator.

Conventions of the embedding:
* Python `str` values that only flow through equality / concatenation are
  `String`; hashtag text that is inspected character by character
  (length bounds, `isdigit`, `lower`) is `List Char` (`Tag`).
* `datetime` instants are abstract ticks (`Time := Nat`); `isoformat`
  serialisation is the identity in the model.
* Python `float` arithmetic (averages) is modelled exactly over `ℚ`.
* The external page-automation collaborator is an oracle
  `fetch : PostId → Option PostEngagement`: `none` models the exception /
  `continue` path of the per-post loop, `some` a successful extraction.
* The `random.uniform(15, 25)` multiplier is an injected parameter `rand : ℚ`.
* The Supabase table is a list of rows; `update ... eq(key)` maps over all
  rows with the key, `insert` appends.  A store rejection (exception path)
  is injected as a boolean and leaves the table unchanged.
-/

namespace Instagram

abbrev Tag := List Char
abbrev PostId := String
abbrev Time := Nat

/-- Configuration knobs read from `Config` in `main.py` (discovery settings). -/
structure Config where
  MIN_HASHTAG_FREQUENCY : Nat
  TOP_HASHTAGS_TO_SAVE : Nat
  POSTS_PER_HASHTAG : Nat
  POSTS_TO_SCAN : Nat
  SCROLL_COUNT : Nat
deriving DecidableEq

/-- `PLATFORM_NAME = "Instagram"`. -/
def PLATFORM_NAME : String := "Instagram"

/-- `INSTAGRAM_EXPLORE_URL`. -/
def INSTAGRAM_EXPLORE_URL : String := "https://www.instagram.com/explore/"

/-- `DEFAULT_LANGUAGE = "en"`. -/
def DEFAULT_LANGUAGE : String := "en"

/-! ## Categorizer (`HASHTAG_CATEGORIES`, `categorize_hashtag`) -/

/-- The fixed ordered category table of `main.py` (a Python 3.7+ dict, whose
iteration order is declaration order). -/
def HASHTAG_CATEGORIES : List (String × List String) :=
  [("fashion", ["fashion", "style", "ootd", "outfit", "fashionista", "stylish", "beauty", "makeup", "clothing", "dress", "shoes", "accessories"]),
   ("fitness", ["fitness", "gym", "workout", "health", "fit", "exercise", "training", "muscle", "bodybuilding", "yoga", "running", "cycling"]),
   ("food", ["food", "foodie", "cooking", "recipe", "delicious", "yummy", "instafood", "foodporn", "chef", "restaurant", "dinner", "lunch", "breakfast"]),
   ("travel", ["travel", "wanderlust", "vacation", "adventure", "explore", "trip", "tourism", "beach", "nature", "mountains", "travelgram"]),
   ("technology", ["tech", "technology", "gadget", "innovation", "digital", "coding", "programming", "ai", "software", "hardware", "app"]),
   ("business", ["business", "entrepreneur", "startup", "marketing", "finance", "investing", "money", "success", "motivation", "hustle"]),
   ("entertainment", ["entertainment", "movie", "music", "celebrity", "artist", "actor", "singer", "concert", "film", "show", "viral", "trending", "funny", "meme"]),
   ("lifestyle", ["lifestyle", "life", "happy", "love", "instagood", "photooftheday", "picoftheday", "instagram", "insta", "daily", "inspiration"]),
   ("photography", ["photography", "photo", "photographer", "camera", "portrait", "landscape", "art", "creative", "photoshoot"]),
   ("sports", ["sports", "football", "soccer", "basketball", "cricket", "tennis", "athlete", "game", "player", "team", "championship"])]

/-- Python `keyword in hashtag_lower`: substring containment. -/
def keywordMatches (hashtagLower : List Char) (keyword : String) : Bool :=
  decide (keyword.toList <:+: hashtagLower)

/-- The category loop of `categorize_hashtag`: first category (in table
order) one of whose keywords is a substring of the lowered tag wins. -/
def categorizeAux (hashtagLower : List Char) : List (String × List String) → String
  | [] => "general"
  | (category, keywords) :: rest =>
      if keywords.any (keywordMatches hashtagLower) then category
      else categorizeAux hashtagLower rest

/-- `categorize_hashtag(hashtag)` from `main.py`. -/
def categorize_hashtag (hashtag : String) : String :=
  categorizeAux (hashtag.toList.map Char.toLower) HASHTAG_CATEGORIES

/-! ## Discovery Collector (`discover_trending_hashtags`) -/

/-- Python `tag.isdigit()`: non-empty and all characters digits. -/
def pyIsDigit (t : Tag) : Bool := !t.isEmpty && t.all Char.isDigit

/-- The tally-point filter: `3 <= len(tag) <= 30 and not tag.isdigit()`. -/
def validTag (t : Tag) : Bool :=
  (3 ≤ t.length && t.length ≤ 30) && !pyIsDigit t

/-- `tag.lower()`. -/
def normalize (t : Tag) : Tag := t.map Char.toLower

/-- `hashtag_counter[normalized_tag] += 1` on an insertion-ordered counter
(Python `Counter` preserves first-insertion order of keys). -/
def incr : List (Tag × Nat) → Tag → List (Tag × Nat)
  | [], t => [(t, 1)]
  | (k, n) :: rest, t =>
      if k = t then (k, n + 1) :: rest else (k, n) :: incr rest t

/-- One iteration of the tag loop: tally only tags passing the filter,
after normalizing. -/
def tallyStep (c : List (Tag × Nat)) (ob : Tag × PostId) : List (Tag × Nat) :=
  if validTag ob.1 then incr c (normalize ob.1) else c

/-- The frequency counter built by the collection loop over the stream of
(tag, originating post) observations, in document order. -/
def tally (obs : List (Tag × PostId)) : List (Tag × Nat) :=
  obs.foldl tallyStep []

/-- `post_hashtags_map[normalized_tag].append(post_url)` on an
insertion-ordered map. -/
def addPost : List (Tag × List PostId) → Tag → PostId → List (Tag × List PostId)
  | [], t, p => [(t, [p])]
  | (k, ps) :: rest, t, p =>
      if k = t then (k, ps ++ [p]) :: rest else (k, ps) :: addPost rest t p

/-- The posts-per-hashtag map built alongside the counter. -/
def postMap (obs : List (Tag × PostId)) : List (Tag × List PostId) :=
  obs.foldl (fun m ob => if validTag ob.1 then addPost m (normalize ob.1) ob.2 else m) []

/-- Stable descending insertion (the earlier element goes first on ties). -/
def insertDesc (x : Tag × Nat) : List (Tag × Nat) → List (Tag × Nat)
  | [] => [x]
  | y :: ys => if y.2 ≤ x.2 then x :: y :: ys else y :: insertDesc x ys

/-- `Counter.most_common()`: sort by count descending; equal counts keep
first-encountered order (Python's sort is stable over insertion order). -/
def most_common : List (Tag × Nat) → List (Tag × Nat)
  | [] => []
  | x :: l => insertDesc x (most_common l)

/-- `[tag for tag, count in hashtag_counter.most_common() if count >=
Config.MIN_HASHTAG_FREQUENCY][:Config.TOP_HASHTAGS_TO_SAVE]`. -/
def top_hashtags (cfg : Config) (obs : List (Tag × PostId)) : List Tag :=
  (((most_common (tally obs)).filter
      (fun p => cfg.MIN_HASHTAG_FREQUENCY ≤ p.2)).map Prod.fst).take
    cfg.TOP_HASHTAGS_TO_SAVE

/-- Counter lookup `hashtag_counter[tag]` (0 when absent). -/
def lookupCount (c : List (Tag × Nat)) (t : Tag) : Nat :=
  (((c.find? (fun p => p.1 = t)).map Prod.snd).getD 0)

/-- Map lookup `post_hashtags_map[tag]` (empty when absent). -/
def lookupPosts (m : List (Tag × List PostId)) (t : Tag) : List PostId :=
  (((m.find? (fun p => p.1 = t)).map Prod.snd).getD [])

/-- The per-hashtag dictionary built by `discover_trending_hashtags`. -/
structure HashtagData where
  hashtag : Tag
  frequency : Nat
  posts_count : Nat
  sample_posts : List PostId
  category : String
deriving DecidableEq

/-- The `hashtag_data` list returned by `discover_trending_hashtags`. -/
def discover_trending_hashtags (cfg : Config) (obs : List (Tag × PostId)) :
    List HashtagData :=
  (top_hashtags cfg obs).map (fun tag =>
    { hashtag := tag
      frequency := lookupCount (tally obs) tag
      posts_count := (lookupPosts (postMap obs) tag).length
      sample_posts := (lookupPosts (postMap obs) tag).take cfg.POSTS_PER_HASHTAG
      category := categorize_hashtag (String.mk tag) })

/-! ## Engagement Aggregator (`get_post_engagement` result shape,
`analyze_hashtag_engagement`) -/

/-- The dictionary returned by a successful `get_post_engagement` call. -/
structure PostEngagement where
  likes : Int
  comments : Int
  views : Int
  total_engagement : Int
  is_video : Bool
deriving DecidableEq

/-- The engagement dictionary returned by `analyze_hashtag_engagement`. -/
structure EngagementSummary where
  avg_likes : ℚ
  avg_comments : ℚ
  avg_engagement : ℚ
  avg_views : ℚ
  total_engagement : ℚ
  total_views : ℚ
  video_count : Nat
deriving DecidableEq

/-- Python `sum` over a list of ints. -/
def sumZ (l : List Int) : Int := l.foldl (· + ·) 0

/-- `analyze_hashtag_engagement(page, hashtag_data)`.  `fetch` is the
page-automation oracle (`none` = the per-post exception handled by
`continue`), `rand` the injected `random.uniform(15, 25)` draw. -/
def analyze_hashtag_engagement (fetch : PostId → Option PostEngagement)
    (rand : ℚ) (cfg : Config) (h : HashtagData) : EngagementSummary :=
  let sample_posts := h.sample_posts.take cfg.POSTS_PER_HASHTAG
  if sample_posts.isEmpty then
    { avg_likes := h.frequency * 1000
      avg_comments := h.frequency * 50
      avg_engagement := h.frequency * 1050
      avg_views := h.frequency * 20000
      total_engagement :=
        if sample_posts.isEmpty then 0
        else (h.frequency : ℚ) * 1050 * sample_posts.length
      total_views := h.frequency * 20000
      video_count := 0 }
  else
    let results := sample_posts.filterMap fetch
    let all_likes := results.map PostEngagement.likes
    let all_comments := results.map PostEngagement.comments
    let all_engagement := results.map PostEngagement.total_engagement
    let all_views := (results.filter PostEngagement.is_video).map PostEngagement.views
    let video_count := (results.filter PostEngagement.is_video).length
    if all_engagement.isEmpty then
      { avg_likes := h.frequency * 1000
        avg_comments := h.frequency * 50
        avg_engagement := h.frequency * 1050
        avg_views := h.frequency * 20000
        total_engagement := h.frequency * 1050
        total_views := h.frequency * 20000
        video_count := 0 }
    else
      let avgViews0 : ℚ :=
        if all_views.isEmpty then 0 else (sumZ all_views : ℚ) / all_views.length
      let totalViews0 : ℚ := if all_views.isEmpty then 0 else (sumZ all_views : ℚ)
      let avgEngagement : ℚ := (sumZ all_engagement : ℚ) / all_engagement.length
      let avgViews : ℚ := if all_views.isEmpty then avgEngagement * rand else avgViews0
      let totalViews : ℚ :=
        if all_views.isEmpty then avgViews * sample_posts.length else totalViews0
      { avg_likes := (sumZ all_likes : ℚ) / all_likes.length
        avg_comments := (sumZ all_comments : ℚ) / all_comments.length
        avg_engagement := avgEngagement
        avg_views := avgViews
        total_engagement := (sumZ all_engagement : ℚ)
        total_views := totalViews
        video_count := video_count }

/-! ## Trend Record Builder (`TrendRecord.from_instagram_data`) -/

/-- Python `int(...)` on a float/rational: truncation toward zero. -/
def pyInt (q : ℚ) : Int := q.num.tdiv q.den

/-- The `raw_blob` dictionary assembled by the builder. -/
structure RawBlob where
  category : String
  frequency : Nat
  posts_count : Nat
  sample_posts : List PostId
  discovery_method : String
  avg_likes : ℚ
  avg_comments : ℚ
  total_engagement : ℚ
  total_views : ℚ
  video_count : Nat
  posts_analyzed : Nat
  total_posts_scanned : Nat
  scroll_count : Nat
  min_frequency_threshold : Nat
  discovered_at : Time
deriving DecidableEq

/-- The `TrendRecord` dataclass. -/
structure TrendRecord where
  platform : String
  url : String
  hashtags : List String
  likes : Int
  comments : Int
  views : Int
  language : String
  timestamp : Time
  engagement_score : ℚ
  version : String
  raw_blob : RawBlob
  first_seen : Option Time
  last_seen : Option Time
deriving DecidableEq

/-- `TrendRecord.from_instagram_data(hashtag_data, engagement_data,
version_id)`; `now` stands for the `datetime.utcnow()` read inside. -/
def TrendRecord.from_instagram_data (cfg : Config) (hashtag_data : HashtagData)
    (engagement_data : EngagementSummary) (version_id : String) (now : Time) :
    TrendRecord :=
  { platform := PLATFORM_NAME
    url := INSTAGRAM_EXPLORE_URL ++ "tags/" ++ String.mk hashtag_data.hashtag ++ "/"
    hashtags := [String.mk ('#' :: hashtag_data.hashtag)]
    likes := pyInt engagement_data.avg_likes
    comments := pyInt engagement_data.avg_comments
    views := pyInt engagement_data.avg_views
    language := DEFAULT_LANGUAGE
    timestamp := now
    engagement_score := engagement_data.avg_engagement
    version := version_id
    raw_blob :=
      { category := hashtag_data.category
        frequency := hashtag_data.frequency
        posts_count := hashtag_data.posts_count
        sample_posts := hashtag_data.sample_posts
        discovery_method := "explore_page"
        avg_likes := engagement_data.avg_likes
        avg_comments := engagement_data.avg_comments
        total_engagement := engagement_data.total_engagement
        total_views := engagement_data.total_views
        video_count := engagement_data.video_count
        posts_analyzed := cfg.POSTS_PER_HASHTAG
        total_posts_scanned := cfg.POSTS_TO_SCAN
        scroll_count := cfg.SCROLL_COUNT
        min_frequency_threshold := cfg.MIN_HASHTAG_FREQUENCY
        discovered_at := now }
    first_seen := some now
    last_seen := some now }

/-! ## Upsert Writer (`save_to_supabase`) over a list-of-rows store -/

/-- The `metadata` JSON blob written into the `instagram` table. -/
structure Metadata where
  url : String
  hashtags : List String
  likes : Int
  comments : Int
  language : String
  timestamp : Time
  version : String
  first_seen : Option Time
  last_seen : Option Time
  raw_blob : RawBlob
deriving DecidableEq

/-- A row of the `instagram` table (schema as used by the payload). -/
structure Row where
  platform : String
  topic_hashtag : String
  engagement_score : ℚ
  sentiment_polarity : ℚ
  sentiment_label : String
  posts : Nat
  views : Int
  metadata : Metadata
  scraped_at : Time
  version_id : String
deriving DecidableEq

/-- The `payload` dictionary prepared in `save_to_supabase`. -/
def payload (r : TrendRecord) : Row :=
  { platform := r.platform
    topic_hashtag := r.hashtags.headD ""
    engagement_score := r.engagement_score
    sentiment_polarity := 0
    sentiment_label := "neutral"
    posts := r.raw_blob.posts_count
    views := r.views
    metadata :=
      { url := r.url
        hashtags := r.hashtags
        likes := r.likes
        comments := r.comments
        language := r.language
        timestamp := r.timestamp
        version := r.version
        first_seen := r.first_seen
        last_seen := r.last_seen
        raw_blob := r.raw_blob }
    scraped_at := r.timestamp
    version_id := r.version }

/-- `save_to_supabase(supabase, trend_record)` on a table modelled as a row
list.  `storeFails` injects the store-exception path (which leaves the table
unchanged and returns `False`); otherwise select-by-key decides between the
update branch (overwriting engagement_score, posts, views, metadata,
scraped_at, version_id of every row with the key) and the insert branch. -/
def save_to_supabase (storeFails : Bool) (db : List Row) (r : TrendRecord) :
    List Row × Bool :=
  if storeFails then (db, false)
  else
    let key := r.hashtags.headD ""
    let p := payload r
    if db.any (fun row => row.topic_hashtag = key) then
      (db.map (fun row =>
        if row.topic_hashtag = key then
          { row with
            engagement_score := p.engagement_score
            posts := p.posts
            views := p.views
            metadata := p.metadata
            scraped_at := p.scraped_at
            version_id := p.version_id }
        else row), true)
    else (db ++ [p], true)

/-! ## Run Orchestrator save loop (`save_trends_to_database`) -/

/-- The running state of the per-hashtag save loop: the table plus the
`successful` / `failed` tallies, the `saved_hashtags` accumulator and the
`errors` list of the final report. -/
structure SaveReport where
  db : List Row
  successful : Nat
  failed : Nat
  saved_hashtags : List (HashtagData × EngagementSummary)
  errors : List (Tag × String)
deriving DecidableEq

/-- One iteration of the loop body of `save_trends_to_database`: analyze
engagement, build the record, attempt the save, tally the outcome and
continue.  `storeFails` names the records the store rejects. -/
def saveLoopStep (storeFails : String → Bool) (fetch : PostId → Option PostEngagement)
    (rand : ℚ) (cfg : Config) (version_id : String) (now : Time)
    (rep : SaveReport) (h : HashtagData) : SaveReport :=
  let engagement_data := analyze_hashtag_engagement fetch rand cfg h
  let trend_record := TrendRecord.from_instagram_data cfg h engagement_data version_id now
  let res := save_to_supabase (storeFails (trend_record.hashtags.headD ""))
    rep.db trend_record
  if res.2 then
    { rep with
      db := res.1
      successful := rep.successful + 1
      saved_hashtags := rep.saved_hashtags ++ [(h, engagement_data)] }
  else
    { rep with
      db := res.1
      failed := rep.failed + 1
      errors := rep.errors ++ [(h.hashtag, "Database save failed")] }

/-- `save_trends_to_database(page, supabase, hashtag_data_list)`: fold the
loop body over the discovered hashtags, starting from zero tallies. -/
def save_trends_to_database (storeFails : String → Bool)
    (fetch : PostId → Option PostEngagement) (rand : ℚ) (cfg : Config)
    (version_id : String) (now : Time) (db : List Row)
    (hashtag_data_list : List HashtagData) : SaveReport :=
  hashtag_data_list.foldl (saveLoopStep storeFails fetch rand cfg version_id now)
    { db := db, successful := 0, failed := 0, saved_hashtags := [], errors := [] }

/-! ## Statement vocabulary and concrete evaluation data -/

/-- First-encountered order of a stream of tags: the order in which distinct
tags first appear (used to state the stability property of the collector). -/
def firstOccurrences (l : List Tag) : List Tag :=
  l.foldl (fun acc t => if t ∈ acc then acc else acc ++ [t]) []

/-- A fetch oracle on which every per-post extraction fails. -/
def fetchNone : PostId → Option PostEngagement := fun _ => none

/-- Default configuration values of `Config` in `main.py`. -/
def defaultConfig : Config :=
  { MIN_HASHTAG_FREQUENCY := 1, TOP_HASHTAGS_TO_SAVE := 10,
    POSTS_PER_HASHTAG := 3, POSTS_TO_SCAN := 400, SCROLL_COUNT := 15 }

/-- A discovered hashtag with frequency 4 and no sample posts. -/
def c4data : HashtagData :=
  { hashtag := ['s', 'u', 'n', 's', 'e', 't'], frequency := 4, posts_count := 0,
    sample_posts := [], category := "general" }

/-- A discovered hashtag with frequency 3 and two sample posts. -/
def c5data : HashtagData :=
  { hashtag := ['s', 'u', 'n', 's', 'e', 't'], frequency := 3, posts_count := 2,
    sample_posts := ["/p/a/", "/p/b/"], category := "general" }

/-- A fetch oracle returning one video and one photo sample. -/
def c5fetch : PostId → Option PostEngagement := fun p =>
  if p = "/p/a/" then
    some { likes := 100, comments := 10, views := 5000, total_engagement := 110,
           is_video := true }
  else
    some { likes := 200, comments := 20, views := 0, total_engagement := 220,
           is_video := false }

/-- A discovered hashtag with frequency 2 and no sample posts (first
estimation-fallback branch). -/
def c10dataEmpty : HashtagData :=
  { hashtag := ['s', 'u', 'n'], frequency := 2, posts_count := 0,
    sample_posts := [], category := "general" }

/-- A discovered hashtag with frequency 2 and one sample post (with
`fetchNone`, the every-fetch-failed fallback branch). -/
def c10dataFailed : HashtagData :=
  { hashtag := ['s', 'u', 'n'], frequency := 2, posts_count := 1,
    sample_posts := ["/p/x/"], category := "general" }

/-- An engagement summary with a negative average-likes count: it violates
the spec's field constraints ("negative counts"). -/
def c8neg : EngagementSummary :=
  { avg_likes := -5, avg_comments := -3, avg_engagement := -8, avg_views := 0,
    total_engagement := -8, total_views := 0, video_count := 0 }

/-- The hashtag observation paired with `c8neg`. -/
def c8data : HashtagData :=
  { hashtag := ['s', 'u', 'n'], frequency := 1, posts_count := 1,
    sample_posts := ["/p/x/"], category := "general" }

/-- Hashtag observation for the two-run upsert scenario. -/
def c1data : HashtagData :=
  { hashtag := ['s', 'u', 'n', 's', 'e', 't'], frequency := 3, posts_count := 3,
    sample_posts := [], category := "general" }

/-- Engagement summary of the first run (empty-sample fallback). -/
def c1eng : EngagementSummary :=
  analyze_hashtag_engagement fetchNone 20 defaultConfig c1data

/-- First run's record, built at tick 100. -/
def c1rec1 : TrendRecord :=
  TrendRecord.from_instagram_data defaultConfig c1data c1eng "run-1" 100

/-- Second run's record for the same hashtag, built at tick 200. -/
def c1rec2 : TrendRecord :=
  TrendRecord.from_instagram_data defaultConfig c1data c1eng "run-2" 200

/-- Table after the first upsert (insert branch) on an empty table. -/
def c1db1 : List Row := (save_to_supabase false [] c1rec1).1

/-- Table after the second upsert (update branch) on the same key. -/
def c1db2 : List Row := (save_to_supabase false c1db1 c1rec2).1

/-- Concrete observation stream: `Sunset` three times (mixed case), a
digits-only tag, a too-short tag and `sunrise` once. -/
def c2obs : List (Tag × PostId) :=
  [(['S', 'u', 'n', 's', 'e', 't'], "/p/1/"), (['1', '2', '3'], "/p/2/"),
   (['s', 'u', 'n', 's', 'e', 't'], "/p/3/"), (['a', 'b'], "/p/4/"),
   (['s', 'u', 'n', 'r', 'i', 's', 'e'], "/p/5/"),
   (['s', 'u', 'n', 's', 'e', 't'], "/p/6/")]

/-! # Theorems -/

/-! ## Categorizer -/

/-- First-match characterization of the category loop, for any table. -/
theorem categorizeAux_spec (low : List Char) (table : List (String × List String)) :
    (categorizeAux low table = "general" ∧
      ∀ q ∈ table, q.2.any (keywordMatches low) = false) ∨
    (∃ pre c kws post, table = pre ++ (c, kws) :: post ∧
      categorizeAux low table = c ∧ kws.any (keywordMatches low) = true ∧
      ∀ q ∈ pre, q.2.any (keywordMatches low) = false) := by
  induction table with
  | nil => exact Or.inl ⟨rfl, by simp⟩
  | cons hd tl ih =>
    obtain ⟨c, kws⟩ := hd
    by_cases h : kws.any (keywordMatches low) = true
    · exact Or.inr ⟨[], c, kws, tl, rfl, by simp [categorizeAux, h], h, by simp⟩
    · have hf : kws.any (keywordMatches low) = false := by
        simpa using h
      have heq : categorizeAux low ((c, kws) :: tl) = categorizeAux low tl := by
        simp [categorizeAux, hf]
      rcases ih with ⟨hg, hall⟩ | ⟨pre, c2, kws2, post, htab, hres, hmatch, hpre⟩
      · refine Or.inl ⟨heq.trans hg, ?_⟩
        intro q hq
        rcases List.mem_cons.mp hq with h1 | h2
        · subst h1; exact hf
        · exact hall q h2
      · refine Or.inr ⟨(c, kws) :: pre, c2, kws2, post, ?_, heq.trans hres, hmatch, ?_⟩
        · rw [htab]; rfl
        · intro q hq
          rcases List.mem_cons.mp hq with h1 | h2
          · subst h1; exact hf
          · exact hpre q h2

/-- C6: `categorize_hashtag` is a deterministic total function: for every
input string it returns the first category, in table declaration order, one
of whose keywords is a substring of the lowercased tag, and returns
`"general"` when no keyword matches; in particular `categorize("techlife")`
returns `"technology"` even though a lifestyle keyword (`"life"`) also
matches. -/
theorem categorize_hashtag_first_match :
    categorize_hashtag "techlife" = "technology" ∧
    (∃ q ∈ HASHTAG_CATEGORIES, q.1 = "lifestyle" ∧
      q.2.any (keywordMatches ("techlife".toList.map Char.toLower)) = true) ∧
    ∀ tag : String,
      (categorize_hashtag tag = "general" ∧
        ∀ q ∈ HASHTAG_CATEGORIES,
          q.2.any (keywordMatches (tag.toList.map Char.toLower)) = false) ∨
      (∃ pre c kws post, HASHTAG_CATEGORIES = pre ++ (c, kws) :: post ∧
        categorize_hashtag tag = c ∧
        kws.any (keywordMatches (tag.toList.map Char.toLower)) = true ∧
        ∀ q ∈ pre, q.2.any (keywordMatches (tag.toList.map Char.toLower)) = false) := by
  refine ⟨by decide, by decide, ?_⟩
  intro tag
  exact categorizeAux_spec (tag.toList.map Char.toLower) HASHTAG_CATEGORIES

/-! ## Trend Record Builder -/

/-- C8 counterexample: on an engagement summary with a negative count the
builder does not fail with any InvalidInput condition — it succeeds and
copies the negative value into the record. -/
theorem from_instagram_data_accepts_negative :
    (TrendRecord.from_instagram_data defaultConfig c8data c8neg "v1" 0).likes = -5 ∧
    (TrendRecord.from_instagram_data defaultConfig c8data c8neg "v1" 0).likes < 0 ∧
    (TrendRecord.from_instagram_data defaultConfig c8data c8neg "v1" 0).raw_blob.avg_likes
      = -5 := by
  refine ⟨by decide, by decide, by decide⟩

/-- C8 amended: the builder performs no field-constraint validation at all:
it is pure construction and succeeds on every input, including inputs with
negative counts, whose values it copies through unchanged. -/
theorem from_instagram_data_pure_construction (cfg : Config) (h : HashtagData)
    (e : EngagementSummary) (v : String) (now : Time) (hneg : e.avg_likes < 0) :
    (TrendRecord.from_instagram_data cfg h e v now).raw_blob.avg_likes < 0 ∧
    (TrendRecord.from_instagram_data cfg h e v now).likes = pyInt e.avg_likes ∧
    (TrendRecord.from_instagram_data cfg h e v now).engagement_score = e.avg_engagement ∧
    (TrendRecord.from_instagram_data cfg h e v now).timestamp = now ∧
    (TrendRecord.from_instagram_data cfg h e v now).first_seen = some now ∧
    (TrendRecord.from_instagram_data cfg h e v now).last_seen = some now ∧
    (TrendRecord.from_instagram_data cfg h e v now).version = v := by
  exact ⟨hneg, rfl, rfl, rfl, rfl, rfl, rfl⟩

/-- Witness for the C8 amended theorem at a concrete negative input. -/
theorem from_instagram_data_pure_construction_witness :
    c8neg.avg_likes < 0 ∧
    ((TrendRecord.from_instagram_data defaultConfig c8data c8neg "v1" 0).raw_blob.avg_likes < 0 ∧
      (TrendRecord.from_instagram_data defaultConfig c8data c8neg "v1" 0).likes = pyInt c8neg.avg_likes ∧
      (TrendRecord.from_instagram_data defaultConfig c8data c8neg "v1" 0).engagement_score = c8neg.avg_engagement ∧
      (TrendRecord.from_instagram_data defaultConfig c8data c8neg "v1" 0).timestamp = 0 ∧
      (TrendRecord.from_instagram_data defaultConfig c8data c8neg "v1" 0).first_seen = some 0 ∧
      (TrendRecord.from_instagram_data defaultConfig c8data c8neg "v1" 0).last_seen = some 0 ∧
      (TrendRecord.from_instagram_data defaultConfig c8data c8neg "v1" 0).version = "v1") :=
  ⟨by decide,
   from_instagram_data_pure_construction defaultConfig c8data c8neg "v1" 0 (by decide)⟩

/-! ## Singleton hashtags and the store key (C9) -/

/-- The two branches of a successful `save_to_supabase`, made explicit. -/
theorem save_to_supabase_branches (db : List Row) (r : TrendRecord) :
    save_to_supabase false db r =
      (if db.any (fun row => row.topic_hashtag = r.hashtags.headD "") then
        (db.map (fun row =>
          if row.topic_hashtag = r.hashtags.headD "" then
            { row with
              engagement_score := (payload r).engagement_score
              posts := (payload r).posts
              views := (payload r).views
              metadata := (payload r).metadata
              scraped_at := (payload r).scraped_at
              version_id := (payload r).version_id }
          else row), true)
      else (db ++ [payload r], true)) := rfl

/-- Rows of a successful upsert: each one carries the record's key or was
already in the table. -/
theorem save_key_mem (db : List Row) (r : TrendRecord) :
    ∀ row ∈ (save_to_supabase false db r).1,
      row.topic_hashtag = r.hashtags.headD "" ∨ row ∈ db := by
  intro row hrow
  rw [save_to_supabase_branches] at hrow
  by_cases hex : db.any (fun row => row.topic_hashtag = r.hashtags.headD "") = true
  · rw [if_pos hex] at hrow
    obtain ⟨orig, horig, heq⟩ := List.mem_map.mp hrow
    by_cases ht : orig.topic_hashtag = r.hashtags.headD ""
    · left
      rw [← heq, if_pos ht]
      exact ht
    · right
      rw [← heq, if_neg ht]
      exact horig
  · rw [if_neg hex] at hrow
    rcases List.mem_append.mp hrow with hin | hnew
    · exact Or.inr hin
    · left
      have hp : row = payload r := by simpa using hnew
      rw [hp]
      rfl

/-- C9: every record produced by the builder has a hashtags list of exactly
one element, the tag with its leading marker, and the writer keys the store
by exactly that element: every row of the post-upsert table either carries
that key or was already present unchanged. -/
theorem hashtags_singleton_key (cfg : Config) (h : HashtagData)
    (e : EngagementSummary) (v : String) (now : Time) (db : List Row) :
    (TrendRecord.from_instagram_data cfg h e v now).hashtags =
      [String.mk ('#' :: h.hashtag)] ∧
    (TrendRecord.from_instagram_data cfg h e v now).hashtags.length = 1 ∧
    (TrendRecord.from_instagram_data cfg h e v now).hashtags.headD "" =
      String.mk ('#' :: h.hashtag) ∧
    ∀ row ∈ (save_to_supabase false db
        (TrendRecord.from_instagram_data cfg h e v now)).1,
      row.topic_hashtag = String.mk ('#' :: h.hashtag) ∨ row ∈ db := by
  exact ⟨rfl, rfl, rfl, save_key_mem db (TrendRecord.from_instagram_data cfg h e v now)⟩

/-! ## Engagement Aggregator: empty-sample fallback (C4) -/

/-- Helper: the empty-sample branch of the aggregator, characterized. -/
theorem analyze_take_nil (fetch : PostId → Option PostEngagement)
    (rand : ℚ) (cfg : Config) (h : HashtagData)
    (he : h.sample_posts.take cfg.POSTS_PER_HASHTAG = []) :
    analyze_hashtag_engagement fetch rand cfg h =
      { avg_likes := h.frequency * 1000
        avg_comments := h.frequency * 50
        avg_engagement := h.frequency * 1050
        avg_views := h.frequency * 20000
        total_engagement := 0
        total_views := h.frequency * 20000
        video_count := 0 } := by
  simp [analyze_hashtag_engagement, he]

/-- Helper: the every-fetch-failed branch of the aggregator, characterized. -/
theorem analyze_all_failed (fetch : PostId → Option PostEngagement)
    (rand : ℚ) (cfg : Config) (h : HashtagData)
    (hne : h.sample_posts.take cfg.POSTS_PER_HASHTAG ≠ [])
    (hfail : (h.sample_posts.take cfg.POSTS_PER_HASHTAG).filterMap fetch = []) :
    analyze_hashtag_engagement fetch rand cfg h =
      { avg_likes := h.frequency * 1000
        avg_comments := h.frequency * 50
        avg_engagement := h.frequency * 1050
        avg_views := h.frequency * 20000
        total_engagement := h.frequency * 1050
        total_views := h.frequency * 20000
        video_count := 0 } := by
  have hne2 : (h.sample_posts.take cfg.POSTS_PER_HASHTAG).isEmpty = false := by
    simpa [List.isEmpty_iff] using hne
  simp [analyze_hashtag_engagement, hne2, hfail]

/-- C4: on an observation whose (truncated) sample-post sequence is empty,
the aggregator returns the frequency-linear estimation fallback:
avg_likes = frequency × 1000, avg_comments = frequency × 50,
avg_engagement = frequency × 1050, avg_views = frequency × 20000,
total_engagement = 0, total_views = frequency × 20000, video_count = 0.
It is a returned summary, not an error. -/
theorem analyze_empty_sample_linear (fetch : PostId → Option PostEngagement)
    (rand : ℚ) (cfg : Config) (h : HashtagData)
    (he : h.sample_posts.take cfg.POSTS_PER_HASHTAG = []) :
    analyze_hashtag_engagement fetch rand cfg h =
      { avg_likes := h.frequency * 1000
        avg_comments := h.frequency * 50
        avg_engagement := h.frequency * 1050
        avg_views := h.frequency * 20000
        total_engagement := 0
        total_views := h.frequency * 20000
        video_count := 0 } :=
  analyze_take_nil fetch rand cfg h he

/-- Witness for C4 at frequency 4: avg_likes = 4000 and avg_comments = 200,
exactly as the spec's example demands. -/
theorem analyze_empty_sample_linear_witness :
    c4data.sample_posts.take defaultConfig.POSTS_PER_HASHTAG = [] ∧
    (analyze_hashtag_engagement fetchNone 20 defaultConfig c4data).avg_likes = 4000 ∧
    (analyze_hashtag_engagement fetchNone 20 defaultConfig c4data).avg_comments = 200 := by
  refine ⟨rfl, ?_, ?_⟩ <;>
    rw [analyze_empty_sample_linear fetchNone 20 defaultConfig c4data rfl] <;>
    norm_num [c4data]

/-! ## Engagement Aggregator: measured views for videos (C5) -/

/-- C5: when at least one successfully fetched sample is flagged is_video,
avg_views is the average of the measured views over exactly the
video-flagged samples, and the whole summary is independent of the random
multiplier draw. -/
theorem analyze_video_views_measured (fetch : PostId → Option PostEngagement)
    (rand₁ rand₂ : ℚ) (cfg : Config) (h : HashtagData)
    (hvid : ∃ s ∈ (h.sample_posts.take cfg.POSTS_PER_HASHTAG).filterMap fetch,
      s.is_video = true) :
    (analyze_hashtag_engagement fetch rand₁ cfg h).avg_views =
      (sumZ ((((h.sample_posts.take cfg.POSTS_PER_HASHTAG).filterMap fetch).filter
          PostEngagement.is_video).map PostEngagement.views) : ℚ) /
        ((((h.sample_posts.take cfg.POSTS_PER_HASHTAG).filterMap fetch).filter
          PostEngagement.is_video).length : ℚ) ∧
    analyze_hashtag_engagement fetch rand₁ cfg h =
      analyze_hashtag_engagement fetch rand₂ cfg h := by
  obtain ⟨s, hs, hsv⟩ := hvid
  have hres : (h.sample_posts.take cfg.POSTS_PER_HASHTAG).filterMap fetch ≠ [] := by
    intro h0
    rw [h0] at hs
    exact absurd hs (List.not_mem_nil s)
  have hsp : (h.sample_posts.take cfg.POSTS_PER_HASHTAG).isEmpty = false := by
    rw [List.isEmpty_eq_false]
    intro h0
    apply hres
    rw [h0]
    rfl
  have heng : ((((h.sample_posts.take cfg.POSTS_PER_HASHTAG).filterMap fetch).map
      PostEngagement.total_engagement)).isEmpty = false := by
    rw [List.isEmpty_eq_false]
    simpa using hres
  have hviews : (((((h.sample_posts.take cfg.POSTS_PER_HASHTAG).filterMap fetch).filter
      PostEngagement.is_video).map PostEngagement.views)).isEmpty = false := by
    rw [List.isEmpty_eq_false]
    have : s ∈ ((h.sample_posts.take cfg.POSTS_PER_HASHTAG).filterMap fetch).filter
        PostEngagement.is_video := List.mem_filter.mpr ⟨hs, hsv⟩
    intro h0
    rw [List.map_eq_nil_iff] at h0
    rw [h0] at this
    exact absurd this (List.not_mem_nil s)
  constructor
  · simp [analyze_hashtag_engagement, hsp, heng, hviews]
  · simp [analyze_hashtag_engagement, hsp, heng, hviews]

/-- Witness for C5: a fetch oracle with one video (5000 measured views) and
one photo; avg_views is exactly 5000 and the summary ignores the random
draw (16 vs 24). -/
theorem analyze_video_views_measured_witness :
    (∃ s ∈ (c5data.sample_posts.take defaultConfig.POSTS_PER_HASHTAG).filterMap c5fetch,
      s.is_video = true) ∧
    ((analyze_hashtag_engagement c5fetch 16 defaultConfig c5data).avg_views =
      (sumZ ((((c5data.sample_posts.take defaultConfig.POSTS_PER_HASHTAG).filterMap
          c5fetch).filter PostEngagement.is_video).map PostEngagement.views) : ℚ) /
        ((((c5data.sample_posts.take defaultConfig.POSTS_PER_HASHTAG).filterMap
          c5fetch).filter PostEngagement.is_video).length : ℚ) ∧
      analyze_hashtag_engagement c5fetch 16 defaultConfig c5data =
        analyze_hashtag_engagement c5fetch 24 defaultConfig c5data) :=
  ⟨by decide,
    analyze_video_views_measured c5fetch 16 24 defaultConfig c5data (by decide)⟩

/-! ## The two fallback branches disagree on total_engagement (C10) -/

/-- C10: the empty-sample fallback and the every-fetch-failed fallback agree
on avg_likes, avg_comments, avg_engagement, avg_views, total_views and
video_count, but disagree on total_engagement: 0 versus frequency × 1050,
which differ whenever frequency ≥ 1. -/
theorem fallback_total_engagement_mismatch
    (fetch₁ fetch₂ : PostId → Option PostEngagement) (rand₁ rand₂ : ℚ)
    (cfg₁ cfg₂ : Config) (h₁ h₂ : HashtagData) (f : Nat) (hf : 1 ≤ f)
    (hf₁ : h₁.frequency = f) (hf₂ : h₂.frequency = f)
    (hemp : h₁.sample_posts.take cfg₁.POSTS_PER_HASHTAG = [])
    (hne : h₂.sample_posts.take cfg₂.POSTS_PER_HASHTAG ≠ [])
    (hfail : (h₂.sample_posts.take cfg₂.POSTS_PER_HASHTAG).filterMap fetch₂ = []) :
    (analyze_hashtag_engagement fetch₁ rand₁ cfg₁ h₁).total_engagement = 0 ∧
    (analyze_hashtag_engagement fetch₂ rand₂ cfg₂ h₂).total_engagement = f * 1050 ∧
    (analyze_hashtag_engagement fetch₁ rand₁ cfg₁ h₁).total_engagement ≠
      (analyze_hashtag_engagement fetch₂ rand₂ cfg₂ h₂).total_engagement ∧
    (analyze_hashtag_engagement fetch₁ rand₁ cfg₁ h₁).avg_likes =
      (analyze_hashtag_engagement fetch₂ rand₂ cfg₂ h₂).avg_likes ∧
    (analyze_hashtag_engagement fetch₁ rand₁ cfg₁ h₁).avg_comments =
      (analyze_hashtag_engagement fetch₂ rand₂ cfg₂ h₂).avg_comments ∧
    (analyze_hashtag_engagement fetch₁ rand₁ cfg₁ h₁).avg_engagement =
      (analyze_hashtag_engagement fetch₂ rand₂ cfg₂ h₂).avg_engagement ∧
    (analyze_hashtag_engagement fetch₁ rand₁ cfg₁ h₁).avg_views =
      (analyze_hashtag_engagement fetch₂ rand₂ cfg₂ h₂).avg_views ∧
    (analyze_hashtag_engagement fetch₁ rand₁ cfg₁ h₁).total_views =
      (analyze_hashtag_engagement fetch₂ rand₂ cfg₂ h₂).total_views ∧
    (analyze_hashtag_engagement fetch₁ rand₁ cfg₁ h₁).video_count =
      (analyze_hashtag_engagement fetch₂ rand₂ cfg₂ h₂).video_count := by
  rw [analyze_take_nil fetch₁ rand₁ cfg₁ h₁ hemp,
    analyze_all_failed fetch₂ rand₂ cfg₂ h₂ hne hfail, hf₁, hf₂]
  have hfq : (1 : ℚ) ≤ (f : ℚ) := by exact_mod_cast hf
  have hpos : (0 : ℚ) < (f : ℚ) * 1050 := by nlinarith
  exact ⟨rfl, rfl, by simpa using hpos.ne, rfl, rfl, rfl, rfl, rfl, rfl⟩

/-- Witness for C10 at frequency 2: the first branch returns 0, the second
2100. -/
theorem fallback_total_engagement_mismatch_witness :
    (1 ≤ 2 ∧ c10dataEmpty.frequency = 2 ∧ c10dataFailed.frequency = 2 ∧
      c10dataEmpty.sample_posts.take defaultConfig.POSTS_PER_HASHTAG = [] ∧
      c10dataFailed.sample_posts.take defaultConfig.POSTS_PER_HASHTAG ≠ [] ∧
      (c10dataFailed.sample_posts.take defaultConfig.POSTS_PER_HASHTAG).filterMap
        fetchNone = []) ∧
    ((analyze_hashtag_engagement fetchNone 17 defaultConfig c10dataEmpty).total_engagement = 0 ∧
      (analyze_hashtag_engagement fetchNone 18 defaultConfig c10dataFailed).total_engagement = 2 * 1050 ∧
      (analyze_hashtag_engagement fetchNone 17 defaultConfig c10dataEmpty).total_engagement ≠
        (analyze_hashtag_engagement fetchNone 18 defaultConfig c10dataFailed).total_engagement ∧
      (analyze_hashtag_engagement fetchNone 17 defaultConfig c10dataEmpty).avg_likes =
        (analyze_hashtag_engagement fetchNone 18 defaultConfig c10dataFailed).avg_likes ∧
      (analyze_hashtag_engagement fetchNone 17 defaultConfig c10dataEmpty).avg_comments =
        (analyze_hashtag_engagement fetchNone 18 defaultConfig c10dataFailed).avg_comments ∧
      (analyze_hashtag_engagement fetchNone 17 defaultConfig c10dataEmpty).avg_engagement =
        (analyze_hashtag_engagement fetchNone 18 defaultConfig c10dataFailed).avg_engagement ∧
      (analyze_hashtag_engagement fetchNone 17 defaultConfig c10dataEmpty).avg_views =
        (analyze_hashtag_engagement fetchNone 18 defaultConfig c10dataFailed).avg_views ∧
      (analyze_hashtag_engagement fetchNone 17 defaultConfig c10dataEmpty).total_views =
        (analyze_hashtag_engagement fetchNone 18 defaultConfig c10dataFailed).total_views ∧
      (analyze_hashtag_engagement fetchNone 17 defaultConfig c10dataEmpty).video_count =
        (analyze_hashtag_engagement fetchNone 18 defaultConfig c10dataFailed).video_count) :=
  ⟨⟨by decide, rfl, rfl, rfl, by decide, rfl⟩,
    fallback_total_engagement_mismatch fetchNone fetchNone 17 18 defaultConfig
      defaultConfig c10dataEmpty c10dataFailed 2 (by decide) rfl rfl rfl
      (by decide) rfl⟩

/-! ## Upsert Writer and first_seen (C1) -/

/-- C1: the insert branch stores first_seen = the record's timestamp, but a
second upsert on the same key with a later timestamp REPLACES the metadata
blob wholesale, so the stored first_seen becomes the second record's
timestamp instead of being left untouched: the code contradicts the claimed
first_seen preservation. -/
theorem upsert_overwrites_first_seen :
    c1rec1.timestamp = 100 ∧ c1rec2.timestamp = 200 ∧
    c1db1.map (fun row => row.metadata.first_seen) = [some 100] ∧
    c1db2.length = 1 ∧
    c1db2.map (fun row => row.metadata.first_seen) = [some 200] ∧
    c1db2.map (fun row => row.version_id) = ["run-2"] ∧
    c1db2.map (fun row => row.scraped_at) = [200] ∧
    c1db2.map (fun row => row.topic_hashtag) = ["#sunset"] ∧
    (some (200 : Time) : Option Time) ≠ some 100 := by
  refine ⟨rfl, rfl, by decide, by decide, by decide, by decide, by decide,
    by decide, by decide⟩

/-! ## Per-record write failure does not abort the run (C7) -/

/-- Helper: the lengths of the two complementary filters of a list add up to
its length. -/
theorem filter_length_split {α : Type} (p : α → Bool) (l : List α) :
    (l.filter (fun a => !p a)).length + (l.filter p).length = l.length := by
  induction l with
  | nil => rfl
  | cons a l ih =>
    by_cases h : p a = true <;> simp [h, ← ih] <;> omega

/-- Helper: a successful store call always reports True. -/
theorem save_ok_true (db : List Row) (r : TrendRecord) :
    (save_to_supabase false db r).2 = true := by
  rw [save_to_supabase_branches]
  split <;> rfl

/-- Helper: one loop body iteration on a record the store rejects: the table
is unchanged, the failure is tallied and recorded, and the loop goes on. -/
theorem saveLoopStep_fail (storeFails : String → Bool)
    (fetch : PostId → Option PostEngagement) (rand : ℚ) (cfg : Config)
    (v : String) (now : Time) (rep : SaveReport) (hd : HashtagData)
    (hsf : storeFails (String.mk ('#' :: hd.hashtag)) = true) :
    saveLoopStep storeFails fetch rand cfg v now rep hd =
      { rep with
        failed := rep.failed + 1
        errors := rep.errors ++ [(hd.hashtag, "Database save failed")] } := by
  have hsf2 : storeFails ((TrendRecord.from_instagram_data cfg hd
      (analyze_hashtag_engagement fetch rand cfg hd) v now).hashtags.headD "") =
      true := hsf
  simp only [saveLoopStep, hsf2]
  rfl

/-- Helper: one loop body iteration on a record the store accepts. -/
theorem saveLoopStep_ok (storeFails : String → Bool)
    (fetch : PostId → Option PostEngagement) (rand : ℚ) (cfg : Config)
    (v : String) (now : Time) (rep : SaveReport) (hd : HashtagData)
    (hsf : storeFails (String.mk ('#' :: hd.hashtag)) = false) :
    saveLoopStep storeFails fetch rand cfg v now rep hd =
      { rep with
        db := (save_to_supabase false rep.db
          (TrendRecord.from_instagram_data cfg hd
            (analyze_hashtag_engagement fetch rand cfg hd) v now)).1
        successful := rep.successful + 1
        saved_hashtags := rep.saved_hashtags ++
          [(hd, analyze_hashtag_engagement fetch rand cfg hd)] } := by
  have hsf2 : storeFails ((TrendRecord.from_instagram_data cfg hd
      (analyze_hashtag_engagement fetch rand cfg hd) v now).hashtags.headD "") =
      false := hsf
  simp only [saveLoopStep, hsf2, save_ok_true, if_true]

/-- Helper: the save loop, folded from an arbitrary running report, adds one
success or one recorded failure per hashtag and processes the whole list. -/
theorem saveLoop_tallies (storeFails : String → Bool)
    (fetch : PostId → Option PostEngagement) (rand : ℚ) (cfg : Config)
    (v : String) (now : Time) (items : List HashtagData) :
    ∀ rep : SaveReport,
      (items.foldl (saveLoopStep storeFails fetch rand cfg v now) rep).successful =
        rep.successful +
          (items.filter (fun h => !storeFails (String.mk ('#' :: h.hashtag)))).length ∧
      (items.foldl (saveLoopStep storeFails fetch rand cfg v now) rep).failed =
        rep.failed +
          (items.filter (fun h => storeFails (String.mk ('#' :: h.hashtag)))).length ∧
      (items.foldl (saveLoopStep storeFails fetch rand cfg v now) rep).errors =
        rep.errors ++
          (items.filter (fun h => storeFails (String.mk ('#' :: h.hashtag)))).map
            (fun h => (h.hashtag, "Database save failed")) := by
  induction items with
  | nil => intro rep; exact ⟨by simp, by simp, by simp⟩
  | cons hd tl ih =>
    intro rep
    by_cases hsf : storeFails (String.mk ('#' :: hd.hashtag)) = true
    · obtain ⟨h1, h2, h3⟩ := ih ({ rep with
        failed := rep.failed + 1
        errors := rep.errors ++ [(hd.hashtag, "Database save failed")] })
      refine ⟨?_, ?_, ?_⟩
      · rw [List.foldl_cons, saveLoopStep_fail storeFails fetch rand cfg v now rep hd hsf, h1]
        simp [hsf]
      · rw [List.foldl_cons, saveLoopStep_fail storeFails fetch rand cfg v now rep hd hsf, h2]
        simp [hsf, Nat.add_assoc, Nat.add_comm 1]
      · rw [List.foldl_cons, saveLoopStep_fail storeFails fetch rand cfg v now rep hd hsf, h3]
        simp [hsf]
    · have hsf2 : storeFails (String.mk ('#' :: hd.hashtag)) = false := by
        simpa using hsf
      obtain ⟨h1, h2, h3⟩ := ih ({ rep with
        db := (save_to_supabase false rep.db
          (TrendRecord.from_instagram_data cfg hd
            (analyze_hashtag_engagement fetch rand cfg hd) v now)).1
        successful := rep.successful + 1
        saved_hashtags := rep.saved_hashtags ++
          [(hd, analyze_hashtag_engagement fetch rand cfg hd)] })
      refine ⟨?_, ?_, ?_⟩
      · rw [List.foldl_cons, saveLoopStep_ok storeFails fetch rand cfg v now rep hd hsf2, h1]
        simp [hsf2, Nat.add_assoc, Nat.add_comm 1]
      · rw [List.foldl_cons, saveLoopStep_ok storeFails fetch rand cfg v now rep hd hsf2, h2]
        simp [hsf2]
      · rw [List.foldl_cons, saveLoopStep_ok storeFails fetch rand cfg v now rep hd hsf2, h3]
        simp [hsf2]

/-- C7: a store rejection is reported to the caller (`save_to_supabase`
returns the unchanged table and False), and the save loop does not abort:
every hashtag is processed, failures are recorded one per rejected record,
and the final report tallies successful + failed = total. -/
theorem write_failure_reported_run_continues (storeFails : String → Bool)
    (fetch : PostId → Option PostEngagement) (rand : ℚ) (cfg : Config)
    (v : String) (now : Time) (db : List Row) (items : List HashtagData) :
    (∀ (fdb : List Row) (r : TrendRecord), save_to_supabase true fdb r = (fdb, false)) ∧
    (save_trends_to_database storeFails fetch rand cfg v now db items).successful +
      (save_trends_to_database storeFails fetch rand cfg v now db items).failed =
        items.length ∧
    (save_trends_to_database storeFails fetch rand cfg v now db items).failed =
      (items.filter (fun h => storeFails (String.mk ('#' :: h.hashtag)))).length ∧
    (save_trends_to_database storeFails fetch rand cfg v now db items).successful =
      (items.filter (fun h => !storeFails (String.mk ('#' :: h.hashtag)))).length ∧
    (save_trends_to_database storeFails fetch rand cfg v now db items).errors =
      (items.filter (fun h => storeFails (String.mk ('#' :: h.hashtag)))).map
        (fun h => (h.hashtag, "Database save failed")) := by
  obtain ⟨h1, h2, h3⟩ := saveLoop_tallies storeFails fetch rand cfg v now items
    { db := db, successful := 0, failed := 0, saved_hashtags := [], errors := [] }
  refine ⟨fun fdb r => rfl, ?_, ?_, ?_, ?_⟩
  · unfold save_trends_to_database
    rw [h1, h2]
    simp only [Nat.zero_add]
    exact filter_length_split _ items
  · unfold save_trends_to_database
    rw [h2]
    exact Nat.zero_add _
  · unfold save_trends_to_database
    rw [h1]
    exact Nat.zero_add _
  · unfold save_trends_to_database
    rw [h3]
    simp

/-! ## Discovery Collector: rejection at the point of tally (C2) -/

/-- Helper: the tally step ignores an observation whose tag fails the
filter. -/
theorem tallyStep_invalid (c : List (Tag × Nat)) (ob : Tag × PostId)
    (h : validTag ob.1 = false) : tallyStep c ob = c := by
  simp [tallyStep, h]

/-- Helper: the tally of a stream equals the tally of its valid-tag
subsequence, from any starting counter. -/
theorem foldl_tallyStep_filter (obs : List (Tag × PostId)) :
    ∀ acc : List (Tag × Nat),
      obs.foldl tallyStep acc =
        (obs.filter (fun ob => validTag ob.1)).foldl tallyStep acc := by
  induction obs with
  | nil => intro acc; rfl
  | cons ob obs ih =>
    intro acc
    by_cases h : validTag ob.1 = true
    · rw [List.foldl_cons]
      simp only [List.filter_cons, h, if_true, List.foldl_cons]
      exact ih (tallyStep acc ob)
    · have hf : validTag ob.1 = false := by simpa using h
      rw [List.foldl_cons, tallyStep_invalid acc ob hf]
      simp only [List.filter_cons, hf, Bool.false_eq_true, if_false]
      exact ih acc

/-- Helper: incrementing a counter only touches or appends the incremented
key. -/
theorem incr_keys (c : List (Tag × Nat)) (t : Tag) :
    ∀ k ∈ (incr c t).map Prod.fst, k ∈ c.map Prod.fst ∨ k = t := by
  induction c with
  | nil =>
    intro k hk
    simp only [incr, List.map_cons, List.map_nil] at hk
    exact Or.inr (by simpa using hk)
  | cons hd tl ih =>
    intro k hk
    obtain ⟨kh, n⟩ := hd
    by_cases he : kh = t
    · rw [show incr ((kh, n) :: tl) t = (kh, n + 1) :: tl from by
        simp [incr, he]] at hk
      simp only [List.map_cons] at hk
      rw [List.map_cons]
      rcases List.mem_cons.mp hk with h1 | h2
      · exact Or.inl (List.mem_cons.mpr (Or.inl h1))
      · exact Or.inl (List.mem_cons.mpr (Or.inr h2))
    · rw [show incr ((kh, n) :: tl) t = (kh, n) :: incr tl t from by
        simp [incr, he]] at hk
      simp only [List.map_cons] at hk
      rw [List.map_cons]
      rcases List.mem_cons.mp hk with h1 | h2
      · exact Or.inl (List.mem_cons.mpr (Or.inl h1))
      · rcases ih k h2 with h3 | h3
        · exact Or.inl (List.mem_cons.mpr (Or.inr h3))
        · exact Or.inr h3

/-- Helper: every key of the folded counter comes from the start counter or
from the normalization of a valid observed tag. -/
theorem foldl_tallyStep_keys (obs : List (Tag × PostId)) :
    ∀ acc : List (Tag × Nat), ∀ k ∈ (obs.foldl tallyStep acc).map Prod.fst,
      k ∈ acc.map Prod.fst ∨
        ∃ ob ∈ obs, validTag ob.1 = true ∧ k = normalize ob.1 := by
  induction obs with
  | nil => intro acc k hk; exact Or.inl hk
  | cons ob obs ih =>
    intro acc k hk
    rw [List.foldl_cons] at hk
    rcases ih (tallyStep acc ob) k hk with h1 | ⟨ob2, hob2, hv, hn⟩
    · by_cases h : validTag ob.1 = true
      · rw [show tallyStep acc ob = incr acc (normalize ob.1) from by
          simp [tallyStep, h]] at h1
        rcases incr_keys acc (normalize ob.1) k h1 with h2 | h2
        · exact Or.inl h2
        · exact Or.inr ⟨ob, List.mem_cons_self ob obs, h, h2⟩
      · have hf : validTag ob.1 = false := by simpa using h
        rw [tallyStep_invalid acc ob hf] at h1
        exact Or.inl h1
    · exact Or.inr ⟨ob2, List.mem_cons_of_mem ob hob2, hv, hn⟩

/-- C2: a tag composed only of digits, or shorter than 3 characters, or
longer than 30 characters, is rejected at the point of tally: deleting any
occurrence of such a tag leaves the counter unchanged, the tally equals the
tally of the valid-tag subsequence, and every tallied key is the
normalization of some valid observed tag.  The filter predicate is exactly
the claim's condition. -/
theorem invalid_tags_never_tallied (obs pre post : List (Tag × PostId))
    (t : Tag) (p : PostId) (hinv : validTag t = false) :
    tally (pre ++ (t, p) :: post) = tally (pre ++ post) ∧
    tally obs = tally (obs.filter (fun ob => validTag ob.1)) ∧
    (∀ k ∈ (tally obs).map Prod.fst,
      ∃ ob ∈ obs, validTag ob.1 = true ∧ k = normalize ob.1) ∧
    (∀ u : Tag, validTag u = false ↔
      (pyIsDigit u = true ∨ u.length < 3 ∨ 30 < u.length)) := by
  refine ⟨?_, ?_, ?_, ?_⟩
  · unfold tally
    rw [List.foldl_append, List.foldl_append, List.foldl_cons,
      tallyStep_invalid _ (t, p) hinv]
  · exact foldl_tallyStep_filter obs []
  · intro k hk
    rcases foldl_tallyStep_keys obs [] k hk with h1 | h1
    · exact absurd h1 (by simp)
    · exact h1
  · intro u
    rw [validTag]
    cases hd : pyIsDigit u with
    | false => simp [hd]; omega
    | true => simp [hd]

/-- Witness for C2: the digits-only tag `123` occurring between valid
observations contributes nothing to the tally. -/
theorem invalid_tags_never_tallied_witness :
    validTag (['1', '2', '3'] : Tag) = false ∧
    (tally ([(['S', 'u', 'n', 's', 'e', 't'], "/p/1/")] ++
        (['1', '2', '3'], "/p/2/") ::
          [(['s', 'u', 'n', 's', 'e', 't'], "/p/3/")]) =
      tally ([(['S', 'u', 'n', 's', 'e', 't'], "/p/1/")] ++
        [(['s', 'u', 'n', 's', 'e', 't'], "/p/3/")]) ∧
      tally c2obs = tally (c2obs.filter (fun ob => validTag ob.1)) ∧
      (∀ k ∈ (tally c2obs).map Prod.fst,
        ∃ ob ∈ c2obs, validTag ob.1 = true ∧ k = normalize ob.1) ∧
      (∀ u : Tag, validTag u = false ↔
        (pyIsDigit u = true ∨ u.length < 3 ∨ 30 < u.length))) :=
  ⟨by decide,
    invalid_tags_never_tallied c2obs [(['S', 'u', 'n', 's', 'e', 't'], "/p/1/")]
      [(['s', 'u', 'n', 's', 'e', 't'], "/p/3/")] ['1', '2', '3'] "/p/2/"
      (by decide)⟩

/-! ## Discovery Collector: ranking (C3) -/

/-- Helper: stable insertion is a permutation. -/
theorem insertDesc_perm (x : Tag × Nat) :
    ∀ l : List (Tag × Nat), List.Perm (insertDesc x l) (x :: l) := by
  intro l
  induction l with
  | nil => rfl
  | cons y ys ih =>
    by_cases hc : y.2 ≤ x.2
    · rw [show insertDesc x (y :: ys) = x :: y :: ys from by simp [insertDesc, hc]]
    · rw [show insertDesc x (y :: ys) = y :: insertDesc x ys from by
        simp [insertDesc, hc]]
      exact (ih.cons y).trans (List.Perm.swap x y ys)

/-- Helper: `most_common` permutes the counter. -/
theorem most_common_perm : ∀ c : List (Tag × Nat), List.Perm (most_common c) c := by
  intro c
  induction c with
  | nil => rfl
  | cons x l ih =>
    exact (insertDesc_perm x (most_common l)).trans (ih.cons x)

/-- Helper: stable insertion preserves descending order by count. -/
theorem insertDesc_sorted (x : Tag × Nat) :
    ∀ l : List (Tag × Nat), l.Pairwise (fun a b => b.2 ≤ a.2) →
      (insertDesc x l).Pairwise (fun a b => b.2 ≤ a.2) := by
  intro l
  induction l with
  | nil => intro _; simp [insertDesc]
  | cons y ys ih =>
    intro h
    obtain ⟨hy, hys⟩ := List.pairwise_cons.mp h
    by_cases hc : y.2 ≤ x.2
    · rw [show insertDesc x (y :: ys) = x :: y :: ys from by simp [insertDesc, hc]]
      refine List.pairwise_cons.mpr ⟨?_, h⟩
      intro z hz
      rcases List.mem_cons.mp hz with h1 | h2
      · rw [h1]; exact hc
      · exact le_trans (hy z h2) hc
    · have hc2 : x.2 < y.2 := Nat.lt_of_not_le hc
      rw [show insertDesc x (y :: ys) = y :: insertDesc x ys from by
        simp [insertDesc, hc]]
      refine List.pairwise_cons.mpr ⟨?_, ih hys⟩
      intro z hz
      have hz2 : z ∈ x :: ys := (insertDesc_perm x ys).subset hz
      rcases List.mem_cons.mp hz2 with h1 | h2
      · rw [h1]; exact Nat.le_of_lt hc2
      · exact hy z h2

/-- Helper: `most_common` sorts by descending count. -/
theorem most_common_sorted :
    ∀ c : List (Tag × Nat), (most_common c).Pairwise (fun a b => b.2 ≤ a.2) := by
  intro c
  induction c with
  | nil => simp [most_common]
  | cons x l ih => exact insertDesc_sorted x (most_common l) ih

/-- Helper: stable insertion preserves every equal-count class verbatim. -/
theorem insertDesc_filter (x : Tag × Nat) (n : Nat) :
    ∀ l : List (Tag × Nat),
      (insertDesc x l).filter (fun p => p.2 = n) =
        if x.2 = n then x :: l.filter (fun p => p.2 = n)
        else l.filter (fun p => p.2 = n) := by
  intro l
  induction l with
  | nil =>
    by_cases hx : x.2 = n <;> simp [insertDesc, List.filter_cons, hx]
  | cons y ys ih =>
    by_cases hc : y.2 ≤ x.2
    · rw [show insertDesc x (y :: ys) = x :: y :: ys from by simp [insertDesc, hc]]
      by_cases hx : x.2 = n <;> simp [List.filter_cons, hx]
    · have hc2 : x.2 < y.2 := Nat.lt_of_not_le hc
      rw [show insertDesc x (y :: ys) = y :: insertDesc x ys from by
        simp [insertDesc, hc]]
      by_cases hx : x.2 = n
      · have hyn : ¬(y.2 = n) := by omega
        simp [List.filter_cons, hyn, ih, hx]
      · by_cases hyn : y.2 = n <;> simp [List.filter_cons, hyn, ih, hx]

/-- Helper: the sort is stable: each equal-count class of the sorted counter
is exactly, in order, that class of the insertion-ordered counter. -/
theorem most_common_filter (n : Nat) :
    ∀ c : List (Tag × Nat),
      (most_common c).filter (fun p => p.2 = n) = c.filter (fun p => p.2 = n) := by
  intro c
  induction c with
  | nil => rfl
  | cons x l ih =>
    rw [show most_common (x :: l) = insertDesc x (most_common l) from rfl,
      insertDesc_filter x n (most_common l), ih]
    by_cases hx : x.2 = n <;> simp [List.filter_cons, hx]

/-- Helper: the keys of an incremented counter. -/
theorem incr_keys_eq (t : Tag) :
    ∀ c : List (Tag × Nat),
      (incr c t).map Prod.fst =
        if t ∈ c.map Prod.fst then c.map Prod.fst else c.map Prod.fst ++ [t] := by
  intro c
  induction c with
  | nil => simp [incr]
  | cons hd tl ih =>
    obtain ⟨kh, n⟩ := hd
    by_cases he : kh = t
    · subst he
      simp [incr]
    · rw [show incr ((kh, n) :: tl) t = (kh, n) :: incr tl t from by
        simp [incr, he]]
      by_cases hmem : t ∈ tl.map Prod.fst
      · simp [ih, hmem, List.mem_cons]
      · have : ¬(t ∈ (kh :: tl.map Prod.fst)) := by
          intro hx
          rcases List.mem_cons.mp hx with h1 | h2
          · exact he h1.symm
          · exact hmem h2
        simp only [List.map_cons, ih, if_neg hmem]
        rw [if_neg (by simpa using this)]
        rfl

/-- Helper: incrementing preserves distinctness of keys. -/
theorem incr_nodup (t : Tag) (c : List (Tag × Nat))
    (h : (c.map Prod.fst).Nodup) : ((incr c t).map Prod.fst).Nodup := by
  rw [incr_keys_eq]
  by_cases hmem : t ∈ c.map Prod.fst
  · rw [if_pos hmem]; exact h
  · rw [if_neg hmem]
    refine List.nodup_append.mpr ⟨h, List.nodup_singleton t, ?_⟩
    intro a ha hb
    rw [List.mem_singleton] at hb
    rw [hb] at ha
    exact hmem ha

/-- Helper: the tally has pairwise-distinct keys. -/
theorem tally_keys_nodup (obs : List (Tag × PostId)) :
    ((tally obs).map Prod.fst).Nodup := by
  suffices hgen : ∀ (l : List (Tag × PostId)) (c : List (Tag × Nat)),
      (c.map Prod.fst).Nodup → ((l.foldl tallyStep c).map Prod.fst).Nodup by
    exact hgen obs [] (by simp)
  intro l
  induction l with
  | nil => intro c hc; exact hc
  | cons ob obs ih =>
    intro c hc
    rw [List.foldl_cons]
    by_cases h : validTag ob.1 = true
    · rw [show tallyStep c ob = incr c (normalize ob.1) from by simp [tallyStep, h]]
      exact ih _ (incr_nodup _ c hc)
    · rw [tallyStep_invalid c ob (by simpa using h)]
      exact ih c hc

/-- Helper: the key order of the tally is first-encountered order of the
normalized valid tag stream, from any starting counter. -/
theorem tally_keys_spec (obs : List (Tag × PostId)) :
    ∀ c : List (Tag × Nat),
      (obs.foldl tallyStep c).map Prod.fst =
        ((obs.filter (fun ob => validTag ob.1)).map
            (fun ob => normalize ob.1)).foldl
          (fun acc t => if t ∈ acc then acc else acc ++ [t]) (c.map Prod.fst) := by
  induction obs with
  | nil => intro c; rfl
  | cons ob obs ih =>
    intro c
    by_cases h : validTag ob.1 = true
    · rw [List.foldl_cons,
        show tallyStep c ob = incr c (normalize ob.1) from by simp [tallyStep, h],
        ih]
      simp only [List.filter_cons, h, if_true, List.map_cons, List.foldl_cons]
      rw [incr_keys_eq]
    · have hf : validTag ob.1 = false := by simpa using h
      rw [List.foldl_cons, tallyStep_invalid c ob hf, ih]
      simp only [List.filter_cons, hf, Bool.false_eq_true, if_false]

/-- Helper: looking up the count of a member of a distinct-key counter
returns its stored count. -/
theorem lookupCount_mem :
    ∀ c : List (Tag × Nat), ∀ p : Tag × Nat, p ∈ c →
      ((c.map Prod.fst).Nodup) → lookupCount c p.1 = p.2 := by
  intro c
  induction c with
  | nil => intro p hp _; exact absurd hp (List.not_mem_nil p)
  | cons hd tl ih =>
    intro p hp hnd
    rw [List.map_cons] at hnd
    obtain ⟨hni, hnd2⟩ := List.nodup_cons.mp hnd
    by_cases hh : hd.1 = p.1
    · have hfind : List.find? (fun q => q.1 = p.1) (hd :: tl) = some hd := by
        rw [List.find?_cons]
        simp [hh]
      rcases List.mem_cons.mp hp with h1 | h2
      · rw [h1] at hfind ⊢
        simp [lookupCount, hfind]
      · exfalso
        apply hni
        rw [hh]
        exact List.mem_map_of_mem Prod.fst h2
    · have hfind : List.find? (fun q => q.1 = p.1) (hd :: tl) =
          List.find? (fun q => q.1 = p.1) tl := by
        rw [List.find?_cons]
        simp [hh]
      have h2 : p ∈ tl := by
        rcases List.mem_cons.mp hp with h1 | h2
        · exact absurd (by rw [h1]) hh
        · exact h2
      have := ih p h2 hnd2
      simpa [lookupCount, hfind] using this

/-- C3: characterization of the ranked output of the Discovery Collector.
The returned tag list is the counter's entries sorted by descending
frequency (`most_common`), restricted to those meeting the configured
minimum, truncated to the configured top-N; ties keep first-encountered
order (each equal-frequency class of the output is a prefix of that class
of the insertion-ordered counter, whose key order is first-encounter
order); membership is exactly the tallied tags meeting the minimum, up to
the truncation. -/
theorem discover_ranking (cfg : Config) (obs : List (Tag × PostId)) :
    (discover_trending_hashtags cfg obs).map HashtagData.hashtag =
      top_hashtags cfg obs ∧
    top_hashtags cfg obs =
      (((most_common (tally obs)).filter
          (fun p => cfg.MIN_HASHTAG_FREQUENCY ≤ p.2)).take
        cfg.TOP_HASHTAGS_TO_SAVE).map Prod.fst ∧
    ((((most_common (tally obs)).filter
        (fun p => cfg.MIN_HASHTAG_FREQUENCY ≤ p.2)).take
      cfg.TOP_HASHTAGS_TO_SAVE).Pairwise (fun a b => b.2 ≤ a.2)) ∧
    (∀ p ∈ (((most_common (tally obs)).filter
        (fun p => cfg.MIN_HASHTAG_FREQUENCY ≤ p.2)).take
      cfg.TOP_HASHTAGS_TO_SAVE), cfg.MIN_HASHTAG_FREQUENCY ≤ p.2 ∧ p ∈ tally obs) ∧
    (top_hashtags cfg obs).length =
      min cfg.TOP_HASHTAGS_TO_SAVE
        (((most_common (tally obs)).filter
          (fun p => cfg.MIN_HASHTAG_FREQUENCY ≤ p.2)).length) ∧
    (∀ n : Nat,
      ((((most_common (tally obs)).filter
          (fun p => cfg.MIN_HASHTAG_FREQUENCY ≤ p.2)).take
        cfg.TOP_HASHTAGS_TO_SAVE).filter (fun p => p.2 = n)) <+:
        ((tally obs).filter (fun p => p.2 = n))) ∧
    (∀ p ∈ tally obs, cfg.MIN_HASHTAG_FREQUENCY ≤ p.2 →
      p.1 ∈ top_hashtags cfg obs ∨
        (top_hashtags cfg obs).length = cfg.TOP_HASHTAGS_TO_SAVE) ∧
    (∀ t ∈ top_hashtags cfg obs, ∃ p, p ∈ tally obs ∧ p.1 = t ∧
      cfg.MIN_HASHTAG_FREQUENCY ≤ p.2 ∧ lookupCount (tally obs) t = p.2) ∧
    ((tally obs).map Prod.fst).Nodup ∧
    (top_hashtags cfg obs).Nodup ∧
    (tally obs).map Prod.fst =
      firstOccurrences ((obs.filter (fun ob => validTag ob.1)).map
        (fun ob => normalize ob.1)) := by
  have hperm : List.Perm (most_common (tally obs)) (tally obs) := most_common_perm (tally obs)
  have hnodup : ((tally obs).map Prod.fst).Nodup := tally_keys_nodup obs
  have hsubfil : List.Sublist ((most_common (tally obs)).filter
      (fun p => cfg.MIN_HASHTAG_FREQUENCY ≤ p.2)) (most_common (tally obs)) :=
    List.filter_sublist _
  have hsubtake : List.Sublist (((most_common (tally obs)).filter
      (fun p => cfg.MIN_HASHTAG_FREQUENCY ≤ p.2)).take
    cfg.TOP_HASHTAGS_TO_SAVE) ((most_common (tally obs)).filter
      (fun p => cfg.MIN_HASHTAG_FREQUENCY ≤ p.2)) := List.take_sublist _ _
  refine ⟨?_, ?_, ?_, ?_, ?_, ?_, ?_, ?_, hnodup, ?_, ?_⟩
  · simp only [discover_trending_hashtags, List.map_map]
    exact List.map_id _
  · unfold top_hashtags
    rw [List.map_take]
  · exact List.Pairwise.sublist (hsubtake.trans hsubfil) (most_common_sorted (tally obs))
  · intro p hp
    have hp2 := hsubtake.subset hp
    constructor
    · have := List.of_mem_filter hp2
      simpa using this
    · exact hperm.subset (hsubfil.subset hp2)
  · unfold top_hashtags
    rw [List.length_take, List.length_map]
  · intro n
    by_cases hmin : cfg.MIN_HASHTAG_FREQUENCY ≤ n
    · have htakepre : (((most_common (tally obs)).filter
          (fun p => cfg.MIN_HASHTAG_FREQUENCY ≤ p.2)).take
        cfg.TOP_HASHTAGS_TO_SAVE) <+: ((most_common (tally obs)).filter
          (fun p => cfg.MIN_HASHTAG_FREQUENCY ≤ p.2)) := List.take_prefix _ _
      have h1 := htakepre.filter (fun p => p.2 = n)
      have h2 : (((most_common (tally obs)).filter
          (fun p => cfg.MIN_HASHTAG_FREQUENCY ≤ p.2)).filter (fun p => p.2 = n)) =
          ((tally obs).filter (fun p => p.2 = n)) := by
        rw [List.filter_filter]
        rw [← most_common_filter n (tally obs)]
        apply List.filter_congr
        intro a _
        by_cases ha : a.2 = n
        · simp [ha, hmin]
        · simp [ha]
      rw [h2] at h1
      exact h1
    · have hempty : ((((most_common (tally obs)).filter
          (fun p => cfg.MIN_HASHTAG_FREQUENCY ≤ p.2)).take
        cfg.TOP_HASHTAGS_TO_SAVE).filter (fun p => p.2 = n)) = [] := by
        rw [List.filter_eq_nil_iff]
        intro p hp
        have := List.of_mem_filter (hsubtake.subset hp)
        simp only [decide_eq_true_eq] at this ⊢
        intro hn
        rw [hn] at this
        exact hmin this
      rw [hempty]
      exact List.nil_prefix
  · intro p hp hmin
    have hmc : p ∈ most_common (tally obs) := hperm.mem_iff.mpr hp
    have hfil : p ∈ ((most_common (tally obs)).filter
        (fun p => cfg.MIN_HASHTAG_FREQUENCY ≤ p.2)) :=
      List.mem_filter.mpr ⟨hmc, by simpa using hmin⟩
    by_cases htk : p ∈ (((most_common (tally obs)).filter
        (fun p => cfg.MIN_HASHTAG_FREQUENCY ≤ p.2)).take cfg.TOP_HASHTAGS_TO_SAVE)
    · left
      unfold top_hashtags
      rw [← List.map_take]
      exact List.mem_map_of_mem Prod.fst htk
    · right
      have hlen : cfg.TOP_HASHTAGS_TO_SAVE ≤ ((most_common (tally obs)).filter
          (fun p => cfg.MIN_HASHTAG_FREQUENCY ≤ p.2)).length := by
        by_contra hlt
        push_neg at hlt
        rw [List.take_of_length_le (Nat.le_of_lt hlt)] at htk
        exact htk hfil
      unfold top_hashtags
      rw [List.length_take, List.length_map]
      exact Nat.min_eq_left hlen
  · intro t ht
    unfold top_hashtags at ht
    rw [← List.map_take] at ht
    obtain ⟨p, hp, hpt⟩ := List.mem_map.mp ht
    have hfil := hsubtake.subset hp
    have hmc := hsubfil.subset hfil
    have hmem : p ∈ tally obs := hperm.subset hmc
    refine ⟨p, hmem, hpt, by simpa using List.of_mem_filter hfil, ?_⟩
    rw [← hpt]
    exact lookupCount_mem (tally obs) p hmem hnodup
  · unfold top_hashtags
    have hmapsub : (((most_common (tally obs)).filter
        (fun p => cfg.MIN_HASHTAG_FREQUENCY ≤ p.2)).map Prod.fst).Sublist
        ((most_common (tally obs)).map Prod.fst) := hsubfil.map Prod.fst
    have hmcnodup : ((most_common (tally obs)).map Prod.fst).Nodup :=
      ((hperm.map Prod.fst).nodup_iff).mpr hnodup
    exact List.Nodup.sublist ((List.take_sublist _ _).trans hmapsub) hmcnodup
  · have := tally_keys_spec obs ([] : List (Tag × Nat))
    simpa [tally, firstOccurrences] using this

end Instagram
